import Mathlib

/-!
Verification development for the magento-mcp server core: the guardrail
engine, the OAuth request signer, the plan store, the idempotency ledger,
and the catalog bulk-commit handler are embedded as pure Lean functions
and their specified properties are settled as theorems.

Modelling conventions:
  - JavaScript runtime values that the guardrails inspect are modelled by
    the inductive `JsValue`; a parameter record is an association list.
  - Timestamps are `Nat` (milliseconds); entropy (uuid, nonce) and the
    clock are explicit arguments, making every function deterministic.
  - Prices and percentages are rationals.
  - The HMAC-SHA256-then-base64 primitive from the node crypto library is
    an explicit function argument of type `String → String → String`.
-/

namespace MagentoMcp

/-- Association-list lookup, modelling `Map.get` / JS object property read
(first binding wins; JS maps and objects have unique keys). -/
def lookupA {α : Type} : List (String × α) → String → Option α
  | [], _ => none
  | (k, v) :: t, key => if k = key then some v else lookupA t key

/-- Association-list deletion, modelling `Map.delete` (removes every
binding of the key; on unique-key maps that is the single binding). -/
def eraseA {α : Type} : List (String × α) → String → List (String × α)
  | [], _ => []
  | (k, v) :: t, key => if k = key then eraseA t key else (k, v) :: eraseA t key

/-- Association-list insert-or-replace, modelling `Map.set` / JS object
property assignment: an existing binding is replaced in place, a new key
is appended at the end. -/
def setA {α : Type} : List (String × α) → String → α → List (String × α)
  | [], key, v => [(key, v)]
  | (k, w) :: t, key, v => if k = key then (k, v) :: t else (k, w) :: setA t key v

theorem lookupA_eraseA {α : Type} (l : List (String × α)) (key : String) :
    lookupA (eraseA l key) key = none := by
  induction l with
  | nil => rfl
  | cons h t ih =>
    obtain ⟨k, v⟩ := h
    by_cases hk : k = key <;> simp [eraseA, lookupA, hk, ih]

theorem lookupA_setA {α : Type} (l : List (String × α)) (key : String) (v : α) :
    lookupA (setA l key v) key = some v := by
  induction l with
  | nil => simp [setA, lookupA]
  | cons h t ih =>
    obtain ⟨k, w⟩ := h
    by_cases hk : k = key <;> simp [setA, lookupA, hk, ih]

/-- Runtime values a handler may find in its raw `params` record. -/
inductive JsValue : Type
  | vBool (b : Bool)
  | vStr (s : String)
  | vNum (n : Int)
  | vNull
  deriving DecidableEq, Repr

/-- Risk tiers, from `protocol/types.ts` (`enum RiskTier`). -/
inductive RiskTier : Type
  | safe
  | risk
  | critical
  deriving DecidableEq, Repr

/-- Numeric value of a tier: Safe = 1, Risk = 2, Critical = 3. -/
def RiskTier.val : RiskTier → Nat
  | .safe => 1
  | .risk => 2
  | .critical => 3

/-- The fields of `McpConfig` (from `config/index.ts`) that the embedded
core consults. -/
structure McpConfig : Type where
  maxSkusPerBulkCommit : Nat
  maxCouponQtyPerGeneration : Nat
  priceChangeThresholdPercent : ℚ
  maxDiscountPercent : ℚ
  tier2ConfirmationRequired : Bool
  planExpiryMinutes : Nat
  deriving Repr

/-- Default configuration values from `config/index.ts` (`defaultConfig`). -/
def defaultConfig : McpConfig :=
  { maxSkusPerBulkCommit := 500
  , maxCouponQtyPerGeneration := 1000
  , priceChangeThresholdPercent := 50
  , maxDiscountPercent := 50
  , tier2ConfirmationRequired := true
  , planExpiryMinutes := 30 }

/-- Structured guardrail failure: `GuardrailError` carries a machine
readable code and a human readable message. -/
structure GuardrailError : Type where
  code : String
  message : String
  deriving DecidableEq, Repr

/-- Error thrown when `confirm` is not strictly `true`
(`guardrails.ts`, first throw in `requireConfirmation`). -/
def confirmationError (tier : RiskTier) : GuardrailError :=
  { code := "CONFIRMATION_REQUIRED"
  , message := "This action requires confirm: true and a reason string (Risk Tier "
      ++ toString tier.val ++ ")." }

/-- Error thrown when the reason string is missing, not a string, or
whitespace-only (`guardrails.ts`, second throw in `requireConfirmation`). -/
def reasonError : GuardrailError :=
  { code := "CONFIRMATION_REQUIRED"
  , message := "A non-empty reason string is required for Tier 2+ operations." }

/-- Whitespace characters removed by the JS `String.prototype.trim`
(restricted to the ASCII ones: space, tab, line feed, carriage return,
vertical tab, form feed). -/
def isJsWhitespace (c : Char) : Bool :=
  c = ' ' || c = '\t' || c = '\n' || c = '\r' || c = Char.ofNat 11 || c = Char.ofNat 12

/-- JS `s.trim()`: drop whitespace from both ends. -/
def jsTrim (s : String) : String :=
  String.mk (((s.data.dropWhile isJsWhitespace).reverse.dropWhile isJsWhitespace).reverse)

/-- The reason test of `requireConfirmation`: JS
`!r || typeof r !== 'string' || r.trim().length === 0` is true exactly
when the value is absent, not a string, or a string whose trim is empty
(a falsy string is the empty string, whose trim is also empty). -/
def reasonMissing (params : List (String × JsValue)) : Bool :=
  match lookupA params "reason" with
  | some (JsValue.vStr s) => jsTrim s == ""
  | _ => true

/-- Embedding of `Guardrails.requireConfirmation` (`guardrails.ts`):
when the tier is at or above Risk and `tier2ConfirmationRequired` is set,
demand `confirm === true` and then a non-whitespace reason string. -/
def requireConfirmation (cfg : McpConfig) (tier : RiskTier)
    (params : List (String × JsValue)) : Except GuardrailError Unit :=
  if RiskTier.risk.val ≤ tier.val ∧ cfg.tier2ConfirmationRequired = true then
    if lookupA params "confirm" ≠ some (JsValue.vBool true) then
      Except.error (confirmationError tier)
    else if reasonMissing params then
      Except.error reasonError
    else
      Except.ok ()
  else
    Except.ok ()

/-- Embedding of `Guardrails.checkPriceChangeThreshold` (`guardrails.ts`):
zero current price yields no warning; otherwise warn when the absolute
relative change in percent strictly exceeds the configured threshold.
The numeric rendering inside the message (`toFixed(1)` in the source) is
abstracted to `toString`. -/
def checkPriceChangeThreshold (cfg : McpConfig) (currentPrice newPrice : ℚ) :
    Option String :=
  if currentPrice = 0 then none
  else
    let pctChange : ℚ := |(newPrice - currentPrice) / currentPrice| * 100
    if pctChange > cfg.priceChangeThresholdPercent then
      some ("Price change of " ++ toString pctChange ++ "% exceeds the "
        ++ toString cfg.priceChangeThresholdPercent ++ "% threshold warning.")
    else none

/-- C4: at or above the Risk tier (with the confirmation flag on, its
default), `requireConfirmation` succeeds exactly when `confirm` is the
strict boolean `true` and `reason` is a string that trims to non-empty;
a missing/non-true `confirm` raises the confirm-naming error, a bad
reason raises the reason-naming error, and the two errors are distinct. -/
theorem c4_requireConfirmation_gate (cfg : McpConfig) (tier : RiskTier)
    (params : List (String × JsValue))
    (hflag : cfg.tier2ConfirmationRequired = true)
    (htier : RiskTier.risk.val ≤ tier.val) :
    (requireConfirmation cfg tier params = Except.ok () ↔
        lookupA params "confirm" = some (JsValue.vBool true) ∧
        reasonMissing params = false) ∧
    (reasonMissing params = false ↔
        ∃ s, lookupA params "reason" = some (JsValue.vStr s) ∧ jsTrim s ≠ "") ∧
    (lookupA params "confirm" ≠ some (JsValue.vBool true) →
        requireConfirmation cfg tier params = Except.error (confirmationError tier)) ∧
    (lookupA params "confirm" = some (JsValue.vBool true) → reasonMissing params = true →
        requireConfirmation cfg tier params = Except.error reasonError) ∧
    confirmationError tier ≠ reasonError := by
  refine ⟨?_, ?_, ?_, ?_, ?_⟩
  · unfold requireConfirmation
    rw [if_pos ⟨htier, hflag⟩]
    by_cases hc : lookupA params "confirm" = some (JsValue.vBool true)
    · by_cases hr : reasonMissing params <;> simp [hc, hr]
    · simp [hc]
  · unfold reasonMissing
    cases hl : lookupA params "reason" with
    | none => simp
    | some v =>
      cases v with
      | vStr s =>
        constructor
        · intro h
          exact ⟨s, rfl, by simpa using h⟩
        · rintro ⟨s', hs', hne⟩
          cases hs'
          simpa using hne
      | vBool b => simp
      | vNum n => simp
      | vNull => simp
  · intro hc
    unfold requireConfirmation
    rw [if_pos ⟨htier, hflag⟩, if_pos hc]
  · intro hc hr
    unfold requireConfirmation
    rw [if_pos ⟨htier, hflag⟩]
    simp [hc, hr]
  · cases tier with
    | safe => exact absurd htier (by decide)
    | risk => decide
    | critical => decide

/-- Witness for C4 at concrete inputs: with the default configuration at
the Risk tier, `confirm: true` with reason `"approved by ops"` passes and
`confirm: true` with an empty reason fails naming the reason. -/
theorem c4_requireConfirmation_gate_witness :
    requireConfirmation defaultConfig RiskTier.risk
        [("confirm", JsValue.vBool true), ("reason", JsValue.vStr "approved by ops")] =
      Except.ok () ∧
    requireConfirmation defaultConfig RiskTier.risk
        [("confirm", JsValue.vBool true), ("reason", JsValue.vStr "")] =
      Except.error reasonError := by
  constructor
  · exact (c4_requireConfirmation_gate defaultConfig RiskTier.risk
      [("confirm", JsValue.vBool true), ("reason", JsValue.vStr "approved by ops")]
      (by decide) (by decide)).1.mpr (by decide)
  · exact (c4_requireConfirmation_gate defaultConfig RiskTier.risk
      [("confirm", JsValue.vBool true), ("reason", JsValue.vStr "")]
      (by decide) (by decide)).2.2.2.1 (by decide) (by decide)

/-- C10: when the configuration flag `tier2ConfirmationRequired` is false,
`requireConfirmation` succeeds for every tier and every params record —
the confirmation gate is disabled entirely by configuration. -/
theorem c10_confirmation_gate_disabled (cfg : McpConfig) (tier : RiskTier)
    (params : List (String × JsValue))
    (hflag : cfg.tier2ConfirmationRequired = false) :
    requireConfirmation cfg tier params = Except.ok () := by
  unfold requireConfirmation
  rw [if_neg]
  rintro ⟨-, h⟩
  rw [hflag] at h
  exact Bool.false_ne_true h

/-- Witness for C10 at a concrete input: flag off, Critical tier, no
confirm flag and no reason — the gate still passes. -/
theorem c10_confirmation_gate_disabled_witness :
    requireConfirmation { defaultConfig with tier2ConfirmationRequired := false }
      RiskTier.critical [] = Except.ok () :=
  c10_confirmation_gate_disabled _ RiskTier.critical [] rfl

/-- C9: for non-negative prices, `checkPriceChangeThreshold` warns exactly
when the old price is non-zero and `abs(new - old) / old * 100` strictly
exceeds the configured threshold, and a zero old price never warns. -/
theorem c9_price_change_threshold (cfg : McpConfig) (oldPrice newPrice : ℚ)
    (hnn : 0 ≤ oldPrice) :
    ((checkPriceChangeThreshold cfg oldPrice newPrice).isSome ↔
        oldPrice ≠ 0 ∧
          |newPrice - oldPrice| / oldPrice * 100 > cfg.priceChangeThresholdPercent) ∧
    (oldPrice = 0 → checkPriceChangeThreshold cfg oldPrice newPrice = none) := by
  constructor
  · unfold checkPriceChangeThreshold
    by_cases h0 : oldPrice = 0
    · simp [h0]
    · have hpos : 0 < oldPrice := lt_of_le_of_ne hnn (Ne.symm h0)
      have habs : |(newPrice - oldPrice) / oldPrice| = |newPrice - oldPrice| / oldPrice := by
        rw [abs_div, abs_of_pos hpos]
      by_cases hgt : |(newPrice - oldPrice) / oldPrice| * 100 > cfg.priceChangeThresholdPercent
      · rw [habs] at hgt
        simp only [h0, if_false]
        rw [if_pos (by rw [habs]; exact hgt)]
        simp [h0, hgt]
      · rw [habs] at hgt
        simp only [h0, if_false]
        rw [if_neg (by rw [habs]; exact hgt)]
        simp [h0, hgt]
  · intro h0
    simp [checkPriceChangeThreshold, h0]

/-- Witness for C9 at the spec vectors with the default threshold 50:
(100, 151) warns, (100, 149) does not, (0, 50) does not. -/
theorem c9_price_change_threshold_witness :
    (checkPriceChangeThreshold defaultConfig 100 151).isSome = true ∧
    checkPriceChangeThreshold defaultConfig 100 149 = none ∧
    checkPriceChangeThreshold defaultConfig 0 50 = none := by
  refine ⟨?_, ?_, ?_⟩
  · exact (c9_price_change_threshold defaultConfig 100 151 (by norm_num)).1.mpr
      ⟨by norm_num, by norm_num [defaultConfig]⟩
  · have h := (c9_price_change_threshold defaultConfig 100 149 (by norm_num)).1
    rw [← Option.not_isSome_iff_eq_none]
    intro hs
    have := h.mp hs
    norm_num [defaultConfig] at this
  · exact (c9_price_change_threshold defaultConfig 0 50 (by norm_num)).2 rfl

/-- Hexadecimal digit characters, uppercase (the source upper-cases the
hex of the extra-encoded characters, and encodeURIComponent itself emits
uppercase hex). -/
def hexDigit (n : Nat) : Char :=
  ['0', '1', '2', '3', '4', '5', '6', '7', '8', '9',
   'A', 'B', 'C', 'D', 'E', 'F'].getD n '0'

/-- UTF-8 bytes of a unicode scalar value. -/
def utf8Bytes (c : Char) : List Nat :=
  let n := c.toNat
  if n < 128 then [n]
  else if n < 2048 then [192 + n / 64, 128 + n % 64]
  else if n < 65536 then [224 + n / 4096, 128 + n / 64 % 64, 128 + n % 64]
  else [240 + n / 262144, 128 + n / 4096 % 64, 128 + n / 64 % 64, 128 + n % 64]

/-- Percent-encoding of one byte. -/
def percentByte (b : Nat) : String :=
  String.mk ['%', hexDigit (b / 16), hexDigit (b % 16)]

/-- Characters that `rfc3986Encode` leaves unencoded: encodeURIComponent
leaves alphanumerics and `- _ . ! ~ * ( )` and the apostrophe, and the
regex replacement then encodes `! ( ) *` and the apostrophe, leaving the
RFC 3986 unreserved set. -/
def isUnreservedRfc3986 (c : Char) : Bool :=
  (decide (c ≥ 'A') && decide (c ≤ 'Z')) ||
  (decide (c ≥ 'a') && decide (c ≤ 'z')) ||
  (decide (c ≥ '0') && decide (c ≤ '9')) ||
  c = '-' || c = '_' || c = '.' || c = '~'

/-- Encoding of one character: unreserved characters pass through, all
others become percent-encoded UTF-8 bytes. -/
def encodeChar (c : Char) : String :=
  if isUnreservedRfc3986 c then String.singleton c
  else String.join ((utf8Bytes c).map percentByte)

/-- Embedding of `MagentoRestClient.rfc3986Encode` (`magentoRest.ts`):
`encodeURIComponent` followed by additionally percent-encoding
`! ( ) *` and the apostrophe with uppercase hex. -/
def rfc3986Encode (s : String) : String :=
  String.join (s.data.map encodeChar)

/-- Code-unit lexicographic comparison on character lists, as used by the
default JS `Array.prototype.sort` comparator on strings. -/
def charListLe : List Char → List Char → Bool
  | [], _ => true
  | _ :: _, [] => false
  | a :: as, b :: bs =>
    if a.toNat < b.toNat then true
    else if a.toNat = b.toNat then charListLe as bs
    else false

/-- String comparison for the JS default sort. -/
def strLe (a b : String) : Bool :=
  charListLe a.data b.data

/-- Ordered insertion for insertion sort. -/
def insertBy {α : Type} (le : α → α → Bool) (x : α) : List α → List α
  | [] => [x]
  | y :: t => if le x y then x :: y :: t else y :: insertBy le x t

/-- Insertion sort with a boolean comparison (models the JS sort; the key
sets sorted here have no duplicates, so stability is irrelevant). -/
def sortBy {α : Type} (le : α → α → Bool) : List α → List α
  | [] => []
  | x :: t => insertBy le x (sortBy le t)

/-- OAuth 1.0 credential tuple (`OAuthCredentials` in `magentoRest.ts`). -/
structure OAuthCredentials : Type where
  consumerKey : String
  consumerSecret : String
  token : String
  tokenSecret : String
  deriving DecidableEq, Repr

/-- The protocol parameter set built by `buildOAuthHeader`
(`oauthParams` object in the source), with nonce and timestamp passed in
explicitly (the source draws them from `crypto.randomBytes` and the
clock). -/
def oauthProtocolParams (creds : OAuthCredentials) (nonce timestamp : String) :
    List (String × String) :=
  [ ("oauth_consumer_key", creds.consumerKey)
  , ("oauth_nonce", nonce)
  , ("oauth_signature_method", "HMAC-SHA256")
  , ("oauth_timestamp", timestamp)
  , ("oauth_token", creds.token)
  , ("oauth_version", "1.0") ]

/-- `allParams`: spread of the protocol parameters, then each query
parameter assigned in order (assignment replaces an existing binding,
JS object semantics). -/
def mergedParams (creds : OAuthCredentials) (nonce timestamp : String)
    (queryParams : List (String × String)) : List (String × String) :=
  queryParams.foldl (fun m kv => setA m kv.1 kv.2)
    (oauthProtocolParams creds nonce timestamp)

/-- Parameter string exactly as the code builds it
(`Object.keys(allParams).sort().map(k => enc(k)+"="+enc(allParams[k])).join("&")`):
the RAW keys are sorted, then each pair is rendered encoded. -/
def paramStringOf (entries : List (String × String)) : String :=
  String.intercalate "&"
    ((sortBy strLe (entries.map Prod.fst)).map
      (fun k => rfc3986Encode k ++ "=" ++ rfc3986Encode ((lookupA entries k).getD "")))

/-- Comparison described by the specification for C3: order by encoded
key, ties broken by encoded value. -/
def encodedPairLe (p q : String × String) : Bool :=
  if rfc3986Encode p.1 = rfc3986Encode q.1 then
    strLe (rfc3986Encode p.2) (rfc3986Encode q.2)
  else
    strLe (rfc3986Encode p.1) (rfc3986Encode q.1)

/-- Parameter string as the specification describes it (RFC 5849
parameter normalization): encode every key and value, sort the entries by
encoded key (ties by encoded value), join as key=value pairs with
ampersands. -/
def specParamStringEncodedSort (entries : List (String × String)) : String :=
  String.intercalate "&"
    ((sortBy encodedPairLe entries).map
      (fun p => rfc3986Encode p.1 ++ "=" ++ rfc3986Encode p.2))

/-- Upper-casing of the method string (`method.toUpperCase()`). -/
def upperStr (s : String) : String :=
  String.mk (s.data.map Char.toUpper)

/-- Signing key: enc(consumerSecret) & enc(tokenSecret). -/
def signingKey (creds : OAuthCredentials) : String :=
  rfc3986Encode creds.consumerSecret ++ "&" ++ rfc3986Encode creds.tokenSecret

/-- Signature base string as the code builds it:
METHOD, ampersand, enc(baseUrl), ampersand, enc(parameter string). -/
def signatureBaseString (method baseUrl : String) (creds : OAuthCredentials)
    (nonce timestamp : String) (queryParams : List (String × String)) : String :=
  upperStr method ++ "&" ++ rfc3986Encode baseUrl ++ "&"
    ++ rfc3986Encode (paramStringOf (mergedParams creds nonce timestamp queryParams))

/-- Authorization header field list (`authParams` in the source): the six
protocol parameters followed by `oauth_signature`; `hmacB64` stands for
the node `createHmac("sha256", key).update(msg).digest("base64")`
primitive, passed in as a function. -/
def oauthHeaderFields (hmacB64 : String → String → String)
    (creds : OAuthCredentials) (method baseUrl : String)
    (queryParams : List (String × String)) (nonce timestamp : String) :
    List (String × String) :=
  oauthProtocolParams creds nonce timestamp
    ++ [("oauth_signature",
          hmacB64 (signingKey creds)
            (signatureBaseString method baseUrl creds nonce timestamp queryParams))]

/-- Embedding of `MagentoRestClient.buildOAuthHeader` (`magentoRest.ts`):
renders the header fields as comma-separated k="enc(v)" pairs after
the OAuth marker. -/
def buildOAuthHeader (hmacB64 : String → String → String)
    (creds : OAuthCredentials) (method baseUrl : String)
    (queryParams : List (String × String)) (nonce timestamp : String) : String :=
  "OAuth " ++ String.intercalate ", "
    ((oauthHeaderFields hmacB64 creds method baseUrl queryParams nonce timestamp).map
      (fun p => p.1 ++ "=\"" ++ rfc3986Encode p.2 ++ "\""))

/-- C3 evidence: at the query map `a. = 1, a/ = 2` the parameter string
the code builds sorts the RAW keys (so `a.` precedes `a/`), while the
claimed construction sorts by ENCODED key (so `a%2F` precedes `a.`); the
two results differ. -/
theorem c3_param_sort_failing :
    paramStringOf (mergedParams ⟨"ck", "cs", "tok", "tsec"⟩ "n" "1"
        [("a.", "1"), ("a/", "2")]) =
      "a.=1&a%2F=2&oauth_consumer_key=ck&oauth_nonce=n&oauth_signature_method=HMAC-SHA256&oauth_timestamp=1&oauth_token=tok&oauth_version=1.0" ∧
    specParamStringEncodedSort (mergedParams ⟨"ck", "cs", "tok", "tsec"⟩ "n" "1"
        [("a.", "1"), ("a/", "2")]) =
      "a%2F=2&a.=1&oauth_consumer_key=ck&oauth_nonce=n&oauth_signature_method=HMAC-SHA256&oauth_timestamp=1&oauth_token=tok&oauth_version=1.0" ∧
    paramStringOf (mergedParams ⟨"ck", "cs", "tok", "tsec"⟩ "n" "1"
        [("a.", "1"), ("a/", "2")]) ≠
      specParamStringEncodedSort (mergedParams ⟨"ck", "cs", "tok", "tsec"⟩ "n" "1"
        [("a.", "1"), ("a/", "2")]) := by
  refine ⟨by decide, by decide, by decide⟩

/-- C7: for a fixed credential tuple, method, base URL and query map, the
header fields are independent of nonce and timestamp except for
`oauth_nonce`, `oauth_timestamp` and `oauth_signature`; and the emitted
`oauth_signature` is exactly the HMAC primitive applied to the signing
key and the signature base string re-derived from the emitted nonce and
timestamp. -/
theorem c7_oauth_header_determinism (hmacB64 : String → String → String)
    (creds : OAuthCredentials) (method baseUrl : String)
    (queryParams : List (String × String)) (n1 t1 n2 t2 : String) :
    (∀ k : String, k ≠ "oauth_nonce" → k ≠ "oauth_timestamp" → k ≠ "oauth_signature" →
        lookupA (oauthHeaderFields hmacB64 creds method baseUrl queryParams n1 t1) k =
        lookupA (oauthHeaderFields hmacB64 creds method baseUrl queryParams n2 t2) k) ∧
    (∀ nonce timestamp : String,
        lookupA (oauthHeaderFields hmacB64 creds method baseUrl queryParams nonce timestamp)
            "oauth_signature" =
          some (hmacB64 (signingKey creds)
            (signatureBaseString method baseUrl creds nonce timestamp queryParams))) := by
  constructor
  · intro k h1 h2 h3
    simp only [oauthHeaderFields, oauthProtocolParams, List.cons_append, List.nil_append,
      lookupA]
    by_cases e1 : "oauth_consumer_key" = k
    · simp [e1]
    · rw [if_neg e1, if_neg e1, if_neg (Ne.symm h1), if_neg (Ne.symm h1)]
      by_cases e2 : "oauth_signature_method" = k
      · simp [e2]
      · rw [if_neg e2, if_neg e2, if_neg (Ne.symm h2), if_neg (Ne.symm h2)]
        by_cases e3 : "oauth_token" = k
        · simp [e3]
        · rw [if_neg e3, if_neg e3]
          by_cases e4 : "oauth_version" = k
          · simp [e4]
          · rw [if_neg e4, if_neg e4, if_neg (Ne.symm h3), if_neg (Ne.symm h3)]
  · intro nonce timestamp
    simp only [oauthHeaderFields, oauthProtocolParams, List.cons_append, List.nil_append,
      lookupA]
    rw [if_neg (by decide), if_neg (by decide), if_neg (by decide), if_neg (by decide),
      if_neg (by decide), if_neg (by decide)]
    simp

/-- Witness for C7 at concrete inputs: a concrete HMAC stand-in, two
different nonce/timestamp pairs; the `oauth_token` field agrees across
the two headers, and the emitted signature field re-derives. -/
theorem c7_oauth_header_determinism_witness :
    lookupA (oauthHeaderFields (fun key msg => key ++ "#" ++ msg)
        ⟨"ck", "cs", "tok", "tsec"⟩ "get" "https://shop.example/rest/V1/products"
        [("b", "2")] "nonceA" "100") "oauth_token" =
      lookupA (oauthHeaderFields (fun key msg => key ++ "#" ++ msg)
        ⟨"ck", "cs", "tok", "tsec"⟩ "get" "https://shop.example/rest/V1/products"
        [("b", "2")] "nonceB" "101") "oauth_token" ∧
    lookupA (oauthHeaderFields (fun key msg => key ++ "#" ++ msg)
        ⟨"ck", "cs", "tok", "tsec"⟩ "get" "https://shop.example/rest/V1/products"
        [("b", "2")] "nonceA" "100") "oauth_signature" =
      some ((fun key msg => key ++ "#" ++ msg) (signingKey ⟨"ck", "cs", "tok", "tsec"⟩)
        (signatureBaseString "get" "https://shop.example/rest/V1/products"
          ⟨"ck", "cs", "tok", "tsec"⟩ "nonceA" "100" [("b", "2")])) :=
  ⟨(c7_oauth_header_determinism (fun key msg => key ++ "#" ++ msg)
      ⟨"ck", "cs", "tok", "tsec"⟩ "get" "https://shop.example/rest/V1/products"
      [("b", "2")] "nonceA" "100" "nonceB" "101").1 "oauth_token"
      (by decide) (by decide) (by decide),
   (c7_oauth_header_determinism (fun key msg => key ++ "#" ++ msg)
      ⟨"ck", "cs", "tok", "tsec"⟩ "get" "https://shop.example/rest/V1/products"
      [("b", "2")] "nonceA" "100" "nonceB" "101").2 "nonceA" "100"⟩

/-- Payload stored by `catalog.prepare_bulk_update` and read back by the
commit handler: the resolved sku list in resolution order, the updates
record (values opaque, modelled as strings), and the optional store view
code of the scope. -/
structure CommitPayload : Type where
  skus : List String
  updates : List (String × String)
  scope : Option String
  deriving DecidableEq, Repr

/-- `BulkPlan` from `protocol/types.ts`; the ISO timestamp strings are
modelled as `Nat` milliseconds, sample diffs are opaque. -/
structure BulkPlan : Type where
  plan_id : String
  action : String
  created_at : Nat
  expires_at : Nat
  payload : CommitPayload
  affected_count : Nat
  sample_diffs : Option (List String)
  warnings : Option (List String)
  deriving DecidableEq, Repr

/-- The in-memory plan map of `PlanStore` (`planStore.ts`). -/
abbrev PlanStore := List (String × BulkPlan)

/-- Embedding of `PlanStore.create`: the fresh uuid and the clock are
explicit arguments; expiry is `now + expiryMinutes * 60000` ms. -/
def planCreate (ps : PlanStore) (freshId : String) (now : Nat) (action : String)
    (payload : CommitPayload) (affectedCount : Nat) (expiryMinutes : Nat)
    (sampleDiffs : Option (List String)) (warnings : Option (List String)) :
    BulkPlan × PlanStore :=
  let plan : BulkPlan :=
    { plan_id := freshId
    , action := action
    , created_at := now
    , expires_at := now + expiryMinutes * 60000
    , payload := payload
    , affected_count := affectedCount
    , sample_diffs := sampleDiffs
    , warnings := warnings }
  (plan, setA ps freshId plan)

/-- Embedding of `PlanStore.get`: absent id yields none; an expired plan
is deleted as a side effect and treated as absent (lazy expiry); a live
plan is returned with the store untouched. -/
def planGet (now : Nat) (ps : PlanStore) (planId : String) :
    Option BulkPlan × PlanStore :=
  match lookupA ps planId with
  | none => (none, ps)
  | some plan =>
    if plan.expires_at < now then (none, eraseA ps planId)
    else (some plan, ps)

/-- Embedding of `PlanStore.consume`: `get`, then delete when found. -/
def planConsume (now : Nat) (ps : PlanStore) (planId : String) :
    Option BulkPlan × PlanStore :=
  match planGet now ps planId with
  | (none, ps1) => (none, ps1)
  | (some plan, ps1) => (some plan, eraseA ps1 planId)

theorem planConsume_some_lookup (now : Nat) (ps : PlanStore) (planId : String)
    (p : BulkPlan) (ps1 : PlanStore)
    (h : planConsume now ps planId = (some p, ps1)) :
    lookupA ps1 planId = none := by
  unfold planConsume at h
  cases hpg : planGet now ps planId with
  | mk o s =>
    rw [hpg] at h
    cases o with
    | none => simp at h
    | some q =>
      simp only [Prod.mk.injEq, Option.some.injEq] at h
      rw [← h.2, lookupA_eraseA]

theorem planConsume_of_lookup_none (now : Nat) (ps : PlanStore) (planId : String)
    (h : lookupA ps planId = none) :
    planConsume now ps planId = (none, ps) := by
  unfold planConsume planGet
  rw [h]

/-- `IdempotencyEntry` from `protocol/types.ts`; the ISO creation
timestamp is a `Nat`. -/
structure IdempotencyEntry : Type where
  key : String
  action : String
  created_at : Nat
  result_summary : String
  deriving DecidableEq, Repr

/-- The key-to-entry map of `IdempotencyLedger` (`idempotencyLedger.ts`). -/
abbrev Ledger := List (String × IdempotencyEntry)

/-- Embedding of `IdempotencyLedger.record`: builds the entry and
`Map.set`s it, replacing any existing binding of the key; the snapshot
rewrite to disk is outside the model. -/
def ledgerRecord (ledger : Ledger) (key action : String) (now : Nat)
    (resultSummary : String) : Ledger :=
  setA ledger key
    { key := key, action := action, created_at := now, result_summary := resultSummary }

/-- Validated commit parameters (`CommitPlanSchema` in `schemas.ts`:
plan_id uuid string, confirm the literal true, reason a min-length-1
string, optional idempotency_key); the validation layer is assumed to
have produced them from the raw params. -/
structure CommitParams : Type where
  plan_id : String
  reason : String
  idempotency_key : Option String
  deriving DecidableEq, Repr

/-- JS truthiness of the optional idempotency key: the source tests
`if (validated.idempotency_key)`, so an empty-string key counts as
absent. -/
def presentKey (o : Option String) : Option String :=
  match o with
  | some k => if k = "" then none else some k
  | none => none

/-- Accumulated result of the per-sku mutation loop of the commit
handler: successes, per-record error list, and the sequence of
downstream PUT calls issued, all in processing order. -/
structure RunResult : Type where
  successCount : Nat
  errors : List (String × String)
  calls : List String
  deriving DecidableEq, Repr

/-- The per-record loop of `catalog.commit_bulk_update`: every sku is
attempted in order; a failing PUT is recorded against that sku and the
loop continues. The signed client is abstracted as the per-sku PUT
outcome. -/
def runSkus (client : String → Except String Unit) : List String → RunResult
  | [] => ⟨0, [], []⟩
  | sku :: rest =>
    let r := runSkus client rest
    match client sku with
    | Except.ok _ => ⟨r.successCount + 1, r.errors, sku :: r.calls⟩
    | Except.error msg => ⟨r.successCount, (sku, msg) :: r.errors, sku :: r.calls⟩

theorem runSkus_calls (client : String → Except String Unit) (skus : List String) :
    (runSkus client skus).calls = skus := by
  induction skus with
  | nil => rfl
  | cons s t ih =>
    unfold runSkus
    cases client s <;> simpa using ih

theorem runSkus_count (client : String → Except String Unit) (skus : List String) :
    (runSkus client skus).successCount + (runSkus client skus).errors.length =
      skus.length := by
  induction skus with
  | nil => rfl
  | cons s t ih =>
    unfold runSkus
    cases client s <;> simp <;> omega

/-- The two return shapes of the commit handler: the idempotency
short-circuit and the completed bulk report. -/
inductive CommitResponse : Type
  | shortCircuit (message previous_result : String)
  | completed (message : String) (success_count error_count : Nat)
      (errors : Option (List (String × String)))
  deriving DecidableEq, Repr

/-- Failures the commit handler can raise: a structured guardrail error
or a plain thrown `Error` message. -/
inductive CommitError : Type
  | guardrail (e : GuardrailError)
  | plain (message : String)
  deriving DecidableEq, Repr

/-- Full observable effect of one commit call: the outcome, the stores
after the call, and the sequence of downstream PUT calls issued. -/
structure CommitResult : Type where
  outcome : Except CommitError CommitResponse
  planStore : PlanStore
  ledger : Ledger
  calls : List String

/-- The generic `Error` thrown when the plan id is absent or expired. -/
def planNotFoundError : CommitError :=
  CommitError.plain "Plan not found or expired. Prepare a new plan."

/-- The result summary string of a completed commit. -/
def commitSummary (successCount total errorCount : Nat) : String :=
  "Updated " ++ toString successCount ++ "/" ++ toString total ++ " products. "
    ++ toString errorCount ++ " errors."

/-- Embedding of the `catalog.commit_bulk_update` handler (`catalog.ts`):
confirmation gate on the raw params, idempotency short-circuit, atomic
plan consumption, sequential per-sku mutation with per-record failure
isolation, ledger record when a key was supplied, and a response carrying
success and error counts. -/
def commitBulkUpdate (cfg : McpConfig) (rawParams : List (String × JsValue))
    (validated : CommitParams) (ledger : Ledger) (ps : PlanStore)
    (client : String → Except String Unit) (now : Nat) : CommitResult :=
  match requireConfirmation cfg RiskTier.risk rawParams with
  | Except.error e => ⟨Except.error (CommitError.guardrail e), ps, ledger, []⟩
  | Except.ok _ =>
    match (presentKey validated.idempotency_key).bind (fun k => lookupA ledger k) with
    | some existing =>
      ⟨Except.ok (CommitResponse.shortCircuit
          "Operation already completed (idempotency match)" existing.result_summary),
        ps, ledger, []⟩
    | none =>
      match planConsume now ps validated.plan_id with
      | (none, ps1) => ⟨Except.error planNotFoundError, ps1, ledger, []⟩
      | (some plan, ps1) =>
        let r := runSkus client plan.payload.skus
        let summary := commitSummary r.successCount plan.payload.skus.length r.errors.length
        let newLedger :=
          match presentKey validated.idempotency_key with
          | some k => ledgerRecord ledger k "catalog.commit_bulk_update" now summary
          | none => ledger
        ⟨Except.ok (CommitResponse.completed summary r.successCount r.errors.length
            (if 0 < r.errors.length then some r.errors else none)),
          ps1, newLedger, r.calls⟩

theorem commit_short_circuit (cfg : McpConfig) (rawParams : List (String × JsValue))
    (validated : CommitParams) (ledger : Ledger) (ps : PlanStore)
    (client : String → Except String Unit) (now : Nat) (k : String)
    (e : IdempotencyEntry)
    (hconf : requireConfirmation cfg RiskTier.risk rawParams = Except.ok ())
    (hkey : validated.idempotency_key = some k) (hne : k ≠ "")
    (hled : lookupA ledger k = some e) :
    commitBulkUpdate cfg rawParams validated ledger ps client now =
      ⟨Except.ok (CommitResponse.shortCircuit
          "Operation already completed (idempotency match)" e.result_summary),
        ps, ledger, []⟩ := by
  unfold commitBulkUpdate
  rw [hconf]
  simp [presentKey, hkey, hne, hled]

theorem runSkus_errors_mem (client : String → Except String Unit) (skus : List String) :
    ∀ sku msg, (sku, msg) ∈ (runSkus client skus).errors → client sku = Except.error msg := by
  induction skus with
  | nil => intro sku msg h; simp [runSkus] at h
  | cons s t ih =>
    intro sku msg h
    unfold runSkus at h
    cases hc : client s with
    | ok u =>
      rw [hc] at h
      simp only at h
      exact ih sku msg h
    | error m =>
      rw [hc] at h
      simp only [List.mem_cons, Prod.mk.injEq] at h
      rcases h with ⟨hs, hm⟩ | h
      · subst hs; subst hm; exact hc
      · exact ih sku msg h

/-- C1: a plan is consumable at most once. Store level: after a
successful `consume(planId)` any further `consume(planId)` on the
resulting store returns absent. Handler level: after a commit call that
succeeded (consuming its plan, no idempotency key involved), a second
commit call with the same plan id fails with the not-found error and
issues no downstream mutation call. -/
theorem c1_plan_consumed_at_most_once :
    (∀ (now : Nat) (ps : PlanStore) (planId : String) (p : BulkPlan) (ps1 : PlanStore),
        planConsume now ps planId = (some p, ps1) →
        ∀ now2 : Nat, planConsume now2 ps1 planId = (none, ps1)) ∧
    (∀ (cfg : McpConfig) (rawParams : List (String × JsValue)) (validated : CommitParams)
        (ledger : Ledger) (ps : PlanStore) (client : String → Except String Unit)
        (now : Nat),
        requireConfirmation cfg RiskTier.risk rawParams = Except.ok () →
        validated.idempotency_key = none →
        (∃ resp, (commitBulkUpdate cfg rawParams validated ledger ps client now).outcome =
            Except.ok resp) →
        ∀ now2 : Nat,
          commitBulkUpdate cfg rawParams validated
              (commitBulkUpdate cfg rawParams validated ledger ps client now).ledger
              (commitBulkUpdate cfg rawParams validated ledger ps client now).planStore
              client now2 =
            ⟨Except.error planNotFoundError,
              (commitBulkUpdate cfg rawParams validated ledger ps client now).planStore,
              (commitBulkUpdate cfg rawParams validated ledger ps client now).ledger,
              []⟩) := by
  constructor
  · intro now ps planId p ps1 h now2
    exact planConsume_of_lookup_none now2 ps1 planId
      (planConsume_some_lookup now ps planId p ps1 h)
  · intro cfg rawParams validated ledger ps client now hconf hkey hex now2
    cases hpc : planConsume now ps validated.plan_id with
    | mk o ps1 =>
      cases o with
      | none =>
        exfalso
        obtain ⟨resp, hresp⟩ := hex
        have hout : (commitBulkUpdate cfg rawParams validated ledger ps client now).outcome =
            Except.error planNotFoundError := by
          unfold commitBulkUpdate
          rw [hconf, hkey, hpc]
          rfl
        rw [hout] at hresp
        exact Except.noConfusion hresp
      | some plan =>
        have hps : (commitBulkUpdate cfg rawParams validated ledger ps client now).planStore =
            ps1 := by
          unfold commitBulkUpdate
          rw [hconf, hkey, hpc]
          rfl
        have hld : (commitBulkUpdate cfg rawParams validated ledger ps client now).ledger =
            ledger := by
          unfold commitBulkUpdate
          rw [hconf, hkey, hpc]
          rfl
        rw [hps, hld]
        have hl : lookupA ps1 validated.plan_id = none :=
          planConsume_some_lookup now ps validated.plan_id plan ps1 hpc
        unfold commitBulkUpdate
        rw [hconf, hkey, planConsume_of_lookup_none now2 ps1 validated.plan_id hl]
        rfl

/-- C2: a commit call presenting an idempotency key already recorded in
the ledger (and passing the confirmation gate) returns the short-circuit
response carrying the recorded result summary, leaves the plan store
untouched (no plan is consumed), leaves the ledger untouched, and issues
no downstream mutation call. -/
theorem c2_idempotency_short_circuit (cfg : McpConfig)
    (rawParams : List (String × JsValue)) (validated : CommitParams)
    (ledger : Ledger) (ps : PlanStore) (client : String → Except String Unit)
    (now : Nat) (k : String) (e : IdempotencyEntry)
    (hconf : requireConfirmation cfg RiskTier.risk rawParams = Except.ok ())
    (hkey : validated.idempotency_key = some k) (hne : k ≠ "")
    (hled : lookupA ledger k = some e) :
    commitBulkUpdate cfg rawParams validated ledger ps client now =
      ⟨Except.ok (CommitResponse.shortCircuit
          "Operation already completed (idempotency match)" e.result_summary),
        ps, ledger, []⟩ :=
  commit_short_circuit cfg rawParams validated ledger ps client now k e hconf hkey hne hled

/-- C5 counterexample: `IdempotencyLedger.record` on an existing key is
NOT append-only at the store level — it replaces the stored entry. -/
theorem c5_record_overwrites_counterexample :
    lookupA (ledgerRecord
        [("k", ⟨"k", "catalog.commit_bulk_update", 1, "Updated 3/3 products. 0 errors."⟩)]
        "k" "catalog.commit_bulk_update" 2 "Updated 1/2 products. 1 errors.") "k" ≠
      some ⟨"k", "catalog.commit_bulk_update", 1, "Updated 3/3 products. 0 errors."⟩ := by
  decide

/-- C5 amended: the append-only behavior holds at the protocol level, not
at the store level — a commit call presenting a key already present in
the ledger short-circuits before any `record`, so the ledger (and in
particular the existing entry for that key) is left unchanged. -/
theorem c5_ledger_append_only_via_commit (cfg : McpConfig)
    (rawParams : List (String × JsValue)) (validated : CommitParams)
    (ledger : Ledger) (ps : PlanStore) (client : String → Except String Unit)
    (now : Nat) (k : String) (e : IdempotencyEntry)
    (hconf : requireConfirmation cfg RiskTier.risk rawParams = Except.ok ())
    (hkey : validated.idempotency_key = some k) (hne : k ≠ "")
    (hled : lookupA ledger k = some e) :
    (commitBulkUpdate cfg rawParams validated ledger ps client now).ledger = ledger :=
  congrArg CommitResult.ledger
    (commit_short_circuit cfg rawParams validated ledger ps client now k e hconf hkey hne hled)

/-- C6: lazy expiry. If a stored plan has expired (expiry strictly before
now), `get` deletes it from the store and returns absent, and `consume`
also returns absent; if it has not expired, `get` returns it without
removing it. -/
theorem c6_lazy_expiry (ps : PlanStore) (planId : String) (p : BulkPlan) (now : Nat)
    (hmem : lookupA ps planId = some p) :
    (p.expires_at < now →
        planGet now ps planId = (none, eraseA ps planId) ∧
        planConsume now ps planId = (none, eraseA ps planId)) ∧
    (¬ p.expires_at < now → planGet now ps planId = (some p, ps)) := by
  constructor
  · intro hexp
    have hg : planGet now ps planId = (none, eraseA ps planId) := by
      unfold planGet
      rw [hmem]
      simp [hexp]
    refine ⟨hg, ?_⟩
    unfold planConsume
    rw [hg]
  · intro hexp
    unfold planGet
    rw [hmem]
    simp [hexp]

/-- C8: when a commit call reaches its mutation loop (confirmation
passed, no idempotency short-circuit, plan consumed), every sku of the
plan payload is attempted downstream exactly in payload order; the
response is reported as a success carrying a success count and an error
count summing to the payload size; the per-record error list is attached
exactly when some record failed; and every recorded error names a record
whose mutation actually failed with that message. -/
theorem c8_bulk_commit_report (cfg : McpConfig)
    (rawParams : List (String × JsValue)) (validated : CommitParams)
    (ledger : Ledger) (ps : PlanStore) (client : String → Except String Unit)
    (now : Nat) (plan : BulkPlan) (ps1 : PlanStore)
    (hconf : requireConfirmation cfg RiskTier.risk rawParams = Except.ok ())
    (hidem : (presentKey validated.idempotency_key).bind (fun k => lookupA ledger k) = none)
    (hplan : planConsume now ps validated.plan_id = (some plan, ps1)) :
    (commitBulkUpdate cfg rawParams validated ledger ps client now).calls =
      plan.payload.skus ∧
    (commitBulkUpdate cfg rawParams validated ledger ps client now).outcome =
      Except.ok (CommitResponse.completed
        (commitSummary (runSkus client plan.payload.skus).successCount
          plan.payload.skus.length (runSkus client plan.payload.skus).errors.length)
        (runSkus client plan.payload.skus).successCount
        (runSkus client plan.payload.skus).errors.length
        (if 0 < (runSkus client plan.payload.skus).errors.length then
          some (runSkus client plan.payload.skus).errors else none)) ∧
    (runSkus client plan.payload.skus).successCount +
        (runSkus client plan.payload.skus).errors.length = plan.payload.skus.length ∧
    (∀ sku msg, (sku, msg) ∈ (runSkus client plan.payload.skus).errors →
        client sku = Except.error msg) := by
  refine ⟨?_, ?_, runSkus_count client plan.payload.skus,
    runSkus_errors_mem client plan.payload.skus⟩
  · have : (commitBulkUpdate cfg rawParams validated ledger ps client now).calls =
        (runSkus client plan.payload.skus).calls := by
      unfold commitBulkUpdate
      rw [hconf, hidem, hplan]
    rw [this, runSkus_calls]
  · unfold commitBulkUpdate
    rw [hconf, hidem, hplan]

/-- Concrete raw commit parameters passing the confirmation gate. -/
def wRaw : List (String × JsValue) :=
  [("confirm", JsValue.vBool true), ("reason", JsValue.vStr "ok")]

/-- Concrete one-sku plan used by witnesses. -/
def wPlan : BulkPlan :=
  { plan_id := "p1"
  , action := "catalog.commit_bulk_update"
  , created_at := 0
  , expires_at := 10
  , payload := ⟨["A"], [("price", "9")], none⟩
  , affected_count := 1
  , sample_diffs := none
  , warnings := none }

/-- Concrete three-sku plan used by witnesses. -/
def wPlan3 : BulkPlan :=
  { wPlan with payload := ⟨["A", "B", "C"], [("price", "9")], none⟩, affected_count := 3 }

/-- Concrete ledger entry and ledger used by witnesses. -/
def wEntry : IdempotencyEntry :=
  ⟨"key1", "catalog.commit_bulk_update", 1, "Updated 2/2 products. 0 errors."⟩

/-- Single-entry ledger used by witnesses. -/
def wLedger : Ledger := [("key1", wEntry)]

/-- Concrete client for the witnesses: the PUT for sku B fails, all
others succeed. -/
def wClient : String → Except String Unit :=
  fun sku => if sku = "B" then Except.error "boom" else Except.ok ()

/-- Witness for C1: consuming plan p1 at time 5 yields it and empties the
store; a second consume returns absent; and the two-commit sequence ends
with the not-found error and no downstream calls. -/
theorem c1_plan_consumed_at_most_once_witness :
    planConsume 6 [] "p1" = (none, []) ∧
    commitBulkUpdate defaultConfig wRaw ⟨"p1", "ok", none⟩
        (commitBulkUpdate defaultConfig wRaw ⟨"p1", "ok", none⟩ [] [("p1", wPlan)]
          (fun _ => Except.ok ()) 5).ledger
        (commitBulkUpdate defaultConfig wRaw ⟨"p1", "ok", none⟩ [] [("p1", wPlan)]
          (fun _ => Except.ok ()) 5).planStore
        (fun _ => Except.ok ()) 6 =
      ⟨Except.error planNotFoundError,
        (commitBulkUpdate defaultConfig wRaw ⟨"p1", "ok", none⟩ [] [("p1", wPlan)]
          (fun _ => Except.ok ()) 5).planStore,
        (commitBulkUpdate defaultConfig wRaw ⟨"p1", "ok", none⟩ [] [("p1", wPlan)]
          (fun _ => Except.ok ()) 5).ledger,
        []⟩ :=
  ⟨c1_plan_consumed_at_most_once.1 5 [("p1", wPlan)] "p1" wPlan [] rfl 6,
   c1_plan_consumed_at_most_once.2 defaultConfig wRaw ⟨"p1", "ok", none⟩ [] [("p1", wPlan)]
     (fun _ => Except.ok ()) 5 rfl rfl ⟨_, rfl⟩ 6⟩

/-- Witness for C2 at concrete inputs: the key key1 is already recorded,
so the commit returns the stored summary with stores untouched and no
calls issued. -/
theorem c2_idempotency_short_circuit_witness :
    commitBulkUpdate defaultConfig wRaw ⟨"p1", "ok", some "key1"⟩ wLedger [("p1", wPlan)]
        (fun _ => Except.ok ()) 5 =
      ⟨Except.ok (CommitResponse.shortCircuit
          "Operation already completed (idempotency match)"
          "Updated 2/2 products. 0 errors."),
        [("p1", wPlan)], wLedger, []⟩ :=
  c2_idempotency_short_circuit defaultConfig wRaw ⟨"p1", "ok", some "key1"⟩ wLedger
    [("p1", wPlan)] (fun _ => Except.ok ()) 5 "key1" wEntry rfl rfl (by decide) rfl

/-- Witness for the amended C5 at concrete inputs: a replayed commit with
the recorded key key1 leaves the ledger unchanged. -/
theorem c5_ledger_append_only_via_commit_witness :
    (commitBulkUpdate defaultConfig wRaw ⟨"p1", "ok", some "key1"⟩ wLedger [("p1", wPlan)]
        (fun _ => Except.ok ()) 5).ledger = wLedger :=
  c5_ledger_append_only_via_commit defaultConfig wRaw ⟨"p1", "ok", some "key1"⟩ wLedger
    [("p1", wPlan)] (fun _ => Except.ok ()) 5 "key1" wEntry rfl rfl (by decide) rfl

/-- Witness for C6 at concrete inputs: plan p1 expires at 10; at time 11
`get` deletes it and returns absent and `consume` returns absent; at
time 5 `get` returns it leaving the store unchanged. -/
theorem c6_lazy_expiry_witness :
    (planGet 11 [("p1", wPlan)] "p1" = (none, eraseA [("p1", wPlan)] "p1") ∧
      planConsume 11 [("p1", wPlan)] "p1" = (none, eraseA [("p1", wPlan)] "p1")) ∧
    planGet 5 [("p1", wPlan)] "p1" = (some wPlan, [("p1", wPlan)]) :=
  ⟨(c6_lazy_expiry [("p1", wPlan)] "p1" wPlan 11 rfl).1 (by decide),
   (c6_lazy_expiry [("p1", wPlan)] "p1" wPlan 5 rfl).2 (by decide)⟩

/-- Witness for C8 at concrete inputs: a three-sku plan where the PUT for
B fails; all three skus are attempted in order, the response reports 2
successes and 1 error with the per-record error list attached, and the
recorded error is a real failure. -/
theorem c8_bulk_commit_report_witness :
    (commitBulkUpdate defaultConfig wRaw ⟨"p1", "ok", none⟩ [] [("p1", wPlan3)]
        wClient 5).calls = ["A", "B", "C"] ∧
    (commitBulkUpdate defaultConfig wRaw ⟨"p1", "ok", none⟩ [] [("p1", wPlan3)]
        wClient 5).outcome =
      Except.ok (CommitResponse.completed "Updated 2/3 products. 1 errors." 2 1
        (some [("B", "boom")])) ∧
    (2 : Nat) + 1 = (3 : Nat) ∧
    (∀ sku msg, (sku, msg) ∈ [("B", "boom")] → wClient sku = Except.error msg) :=
  c8_bulk_commit_report defaultConfig wRaw ⟨"p1", "ok", none⟩ [] [("p1", wPlan3)]
    wClient 5 wPlan3 [] rfl rfl rfl

end MagentoMcp
